import Mathlib

/-!
Verification model of the reference-resolution layer of clangd (the
Target Resolution Engine, exposed in the source as allTargetDecls, and
the Reference Enumeration Engine, exposed as findExplicitReferences).
The engines themselves (FindTarget.cpp) are not present under src; only
their unit tests are (clang-tools-extra/clangd/unittests/FindTargetTests.cpp).
The definitions below are therefore modelled from the specification,
cross-checked against the expected outputs recorded in those tests.
-/

/-- Declarations are opaque, identity-comparable handles into the front
end symbol table (spec section 3). The model carries a numeric identity and
the printed name used by the tests. -/
structure Decl where
  declId : Nat
  declName : String
deriving DecidableEq, Repr

/-- Relation tags Alias, Underlying, TemplateInstantiation, TemplatePattern,
composed as a bitset (spec section 3): isAlias, isUnderlying, isInst, isPat
are the four membership bits. -/
structure DeclRelationSet where
  isAlias : Bool
  isUnderlying : Bool
  isInst : Bool
  isPat : Bool
deriving DecidableEq, Repr

/-- Union of two relation-tag sets (bitwise or, spec section 3). -/
def DeclRelationSet.union (a b : DeclRelationSet) : DeclRelationSet :=
  ⟨a.isAlias || b.isAlias, a.isUnderlying || b.isUnderlying,
   a.isInst || b.isInst, a.isPat || b.isPat⟩

/-- The empty relation-tag set. -/
def relNone : DeclRelationSet := ⟨false, false, false, false⟩

/-- The singleton tag set containing Alias. -/
def relAlias : DeclRelationSet := ⟨true, false, false, false⟩

/-- The singleton tag set containing Underlying. -/
def relUnderlying : DeclRelationSet := ⟨false, true, false, false⟩

/-- The singleton tag set containing TemplateInstantiation. -/
def relInst : DeclRelationSet := ⟨false, false, true, false⟩

/-- The singleton tag set containing TemplatePattern. -/
def relPat : DeclRelationSet := ⟨false, false, false, true⟩

/-- A target set: declarations with accumulated relation tags, deduplicated
by declaration identity with tag-set union (spec section 3). -/
abbrev TargetSet := List (Decl × DeclRelationSet)

/-- Record one declaration with the given flags in a target set: if the
declaration is already present its entry absorbs the flags by union,
otherwise a fresh entry is appended (spec section 3, deduplication by
declaration identity). -/
def report (ts : TargetSet) (d : Decl) (f : DeclRelationSet) : TargetSet :=
  if ts.any (fun e => decide (e.1 = d)) then
    ts.map (fun e => if e.1 = d then (e.1, e.2.union f) else e)
  else ts ++ [(d, f)]

/-- Modelled from the spec: the shape of the declaration a direct name
reference lands on (FindTarget.cpp is absent from src). A reference may go
through a using-shadow or a namespace alias and may land on an implicit
template specialization (with a link to its pattern), an explicit
user-written specialization, or a plain declaration (spec sections 3
and 4.1). -/
inductive RefKind
  | plain (d : Decl)
  | usingShadow (introducer : Decl) (target : RefKind)
  | nsAlias (aliasDecl : Decl) (target : RefKind)
  | implicitSpec (d : Decl) (pat : Decl)
  | explicitSpec (d : Decl)
deriving DecidableEq, Repr

/-- Modelled from the spec: the recursive declaration-reporting step of the
Target Resolution Engine (spec section 4.1, direct name references): a
using-introduced alias is reported tagged Alias and resolution continues
into the real declaration with Underlying; a namespace alias likewise; an
implicit specialization reports its pattern tagged TemplatePattern and
itself tagged TemplateInstantiation; an explicit specialization and a plain
declaration are reported with the incoming flags only. -/
def add : RefKind → DeclRelationSet → TargetSet → TargetSet
  | .plain d, f, ts => report ts d f
  | .usingShadow u t, f, ts =>
      add t (f.union relUnderlying) (report ts u (f.union relAlias))
  | .nsAlias a t, f, ts =>
      report (add t (f.union relUnderlying) ts) a (f.union relAlias)
  | .implicitSpec d p, f, ts =>
      report (report ts p (f.union relPat)) d (f.union relInst)
  | .explicitSpec d, f, ts => report ts d f

/-- Modelled from the spec: the shapes of named type references the claims
exercise (spec section 4.1, type references). A bare template type
parameter reference carries the parameter declaration, which is what the
tests show it resolves to (FindTargetTests.cpp, Types and
FindExplicitReferencesTest type-template-parameter cases). -/
inductive TypeNode
  | recordT (d : Decl)
  | typedefT (aliasDecl : Decl) (underlying : TypeNode)
  | builtinT
  | templateSpecT (r : RefKind)
  | aliasTemplateT (aliasDecl : Decl) (expansion : TypeNode)
  | autoT
  | templateParamT (d : Decl)
deriving DecidableEq, Repr

/-- Modelled from the spec: resolution of a type reference (spec
section 4.1): records resolve to the record; typedefs report the alias and
continue into the aliased type with Underlying; template-specialization
types follow the instantiation and pattern policy of direct references; an
alias template reports the alias tagged Alias and TemplatePattern and adds
what it expands to with Underlying, unioning tags across layers; a deduced
auto type yields nothing (known gap); a template type parameter resolves to
the parameter declaration (per the unit tests). -/
def resolveType : TypeNode → DeclRelationSet → TargetSet → TargetSet
  | .recordT d, f, ts => report ts d f
  | .typedefT a u, f, ts =>
      resolveType u (f.union relUnderlying) (report ts a (f.union relAlias))
  | .builtinT, _, ts => ts
  | .templateSpecT r, f, ts => add r f ts
  | .aliasTemplateT a e, f, ts =>
      report (resolveType e (f.union relUnderlying) ts) a
        ((f.union relAlias).union relPat)
  | .autoT, _, ts => ts
  | .templateParamT d, f, ts => report ts d f

/-- A constructor initializer-list entry: either a field initializer, or a
base or delegating initializer, which is resolved through its written type
name (the unit test ConstructorInitList selects a RecordTypeLoc for the
delegating case and expects the struct declaration). -/
inductive CtorInitEntry
  | fieldInit (f : Decl)
  | baseOrDelegating (t : TypeNode)
deriving DecidableEq, Repr

/-- An Objective-C-style property access: an explicitly declared property
when explicitProp is present, otherwise a property synthesized from the
getter and setter methods; isMessagingSetter marks a write target. -/
structure PropRef where
  explicitProp : Option Decl
  getter : Decl
  setter : Decl
  isMessagingSetter : Bool
deriving DecidableEq, Repr

/-- Modelled from the spec: the closed enumeration of node categories the
Target Resolution Engine dispatches on (spec sections 4.1, 6 and 9). -/
inductive Node
  | declRef (r : RefKind)
  | usingDeclRef (u : Decl) (introduced : List RefKind)
  | ctorInit (e : CtorInitEntry)
  | designatedInit (f : Decl)
  | nnsSegment (r : RefKind)
  | typeRef (t : TypeNode)
  | overloadRef (cands : List Decl)
  | lambdaCapture (d : Decl)
  | objcPropRef (p : PropRef)
  | objcMessage (m : Decl)
  | objcIvar (v : Decl)
  | objcProtocolExpr (p : Decl)
deriving DecidableEq, Repr

/-- Modelled from the spec: the Target Resolution Engine, a pure function
from a syntax node to a target set (spec section 4.1). Dispatch is an
exhaustive match over the closed node enumeration: direct references and
qualifier segments go through add; using-declarations report themselves
tagged Alias plus one Underlying entry per overload actually introduced;
initializer entries target the field or the written type; type references
go through resolveType; overloaded or dependent references report every
visible candidate untagged; Objective-C property accesses select the
explicit property declaration when one exists, otherwise the setter for a
write target and the getter for a read. -/
def resolve : Node → TargetSet
  | .declRef r => add r relNone []
  | .usingDeclRef u intro =>
      intro.foldl (fun ts r => add r relUnderlying ts) (report [] u relAlias)
  | .ctorInit (.fieldInit f) => report [] f relNone
  | .ctorInit (.baseOrDelegating t) => resolveType t relNone []
  | .designatedInit f => report [] f relNone
  | .nnsSegment r => add r relNone []
  | .typeRef t => resolveType t relNone []
  | .overloadRef cs => cs.foldl (fun ts d => report ts d relNone) []
  | .lambdaCapture d => report [] d relNone
  | .objcPropRef p =>
      match p.explicitProp with
      | some d => report [] d relNone
      | none =>
          if p.isMessagingSetter then report [] p.setter relNone
          else report [] p.getter relNone
  | .objcMessage m => report [] m relNone
  | .objcIvar v => report [] v relNone
  | .objcProtocolExpr p => report [] p relNone

/-- Modelled from the spec and the tests: the target filter the Reference
Enumeration Engine applies when it builds the Targets field of a record
(FindTarget.cpp is absent from src). Entries carrying Underlying are
dropped, so a record names the alias it was written through rather than
what the alias unfolds to (FindExplicitReferencesTest: records such as
targets = Typedef, alias, valias, bar); template patterns are kept only
when no instantiation survives the filter. -/
def explicitReferenceTargets (n : Node) : List Decl :=
  let kept := (resolve n).filter (fun e => !e.2.isUnderlying)
  let pats := kept.filter (fun e => e.2.isPat)
  let rest := kept.filter (fun e => !e.2.isPat)
  if rest.any (fun e => e.2.isInst) then rest.map (fun e => e.1)
  else rest.map (fun e => e.1) ++ pats.map (fun e => e.1)

/-- One explicit, user-written name occurrence inside the tree: its source
position, the optional qualifying text written immediately before it, and
the resolution node it designates. -/
structure Ref where
  nameLoc : Nat
  qualifier : Option String
  node : Node
deriving DecidableEq, Repr

/-- A record emitted by the Reference Enumeration Engine (spec section 3):
name position, optional qualifier text, and the targets of the name. -/
structure ReferenceRecord where
  nameLoc : Nat
  qualifier : Option String
  targets : List Decl
deriving DecidableEq, Repr

/-- Build the record for one reference by delegating the target computation
(spec section 4.2, target delegation). -/
def refRecord (r : Ref) : ReferenceRecord :=
  ⟨r.nameLoc, r.qualifier, explicitReferenceTargets r.node⟩

/-- A syntax subtree as the enumeration engine sees it: each node carries
the front-end is-implicit flag (spec section 6), the explicit name
references it would itself emit, and its children. -/
inductive Ast
  | mk (isImplicit : Bool) (refs : List Ref) (children : List Ast)

mutual

/-- Modelled from the spec: the Reference Enumeration Engine (spec
section 4.2): a compiler-synthesized node is traversed for its children
but emits no record of its own; an explicit node emits one record per
name reference it carries, then its children are traversed. -/
def collectRefs : Ast → List ReferenceRecord
  | .mk isImp refs children =>
      (if isImp then [] else refs.map refRecord) ++ collectRefsList children

/-- Traversal of a list of children, in order. -/
def collectRefsList : List Ast → List ReferenceRecord
  | [] => []
  | a :: rest => collectRefs a ++ collectRefsList rest

end

/-- An entity a qualifier segment can name, together with the data needed
for its canonical spelling: a namespace (its qualified path) or a record
type (its bare name). -/
inductive Entity
  | nsE (qname : String)
  | recordE (rname : String)
deriving DecidableEq, Repr

/-- Modelled from the spec: a qualifier may be rewritten to the canonical
spelling of the qualified entity rather than echoing the source text
(spec section 4.2): a namespace spells as its qualified path followed by
the scope operator, a record type as the struct keyword, its name and the
scope operator. -/
def Entity.spelling : Entity → String
  | .nsE q => q ++ "::"
  | .recordE r => "struct " ++ r ++ "::"

/-- One segment of a multi-part qualified path: its source position, the
resolution node for the segment, and the entity it names (for the
canonical spelling of the qualifier of whatever follows it). -/
structure PathSeg where
  segLoc : Nat
  segNode : Node
  entity : Entity
deriving Repr

/-- Modelled from the spec: qualifier extraction (spec section 4.2): each
segment of a multi-segment path produces its own reference, qualified by
the canonical spelling of the entity named immediately before it; the
final name is qualified by the spelling of the last segment entity. -/
def segRefs (prev : Option Entity) : List PathSeg → Nat → Node → List Ref
  | [], nloc, nnode => [⟨nloc, prev.map Entity.spelling, nnode⟩]
  | s :: rest, nloc, nnode =>
      ⟨s.segLoc, prev.map Entity.spelling, s.segNode⟩ ::
        segRefs (some s.entity) rest nloc nnode

/-- The namespace a of the qualified-name fixture. -/
def nsA : Decl := ⟨1, "a"⟩

/-- The namespace a::b of the qualified-name fixture. -/
def nsB : Decl := ⟨2, "a::b"⟩

/-- The struct a::b::S of the qualified-name fixture. -/
def structS : Decl := ⟨3, "a::b::S"⟩

/-- The member type a::b::S::type of the qualified-name fixture. -/
def typeMember : Decl := ⟨4, "a::b::S::type"⟩

/-- The written path a::b::S:: of the qualified-name fixture, with source
offsets 0, 3, 6 for the three segment names. -/
def pathABS : List PathSeg :=
  [⟨0, .nnsSegment (.plain nsA), .nsE "a"⟩,
   ⟨3, .nnsSegment (.plain nsB), .nsE "a::b"⟩,
   ⟨6, .nnsSegment (.plain structS), .recordE "S"⟩]

/-- The declaration a::b::S::type y; as the enumeration engine sees it:
one explicit node carrying the three qualifier-segment references and the
final type-name reference (the member typedef, over a builtin type). -/
def declABSType : Ast :=
  .mk false (segRefs none pathABS 9 (.typeRef (.typedefT typeMember .builtinT))) []

/-- The record type named by the range expression of the range-for
fixture. -/
def vecDecl : Decl := ⟨10, "vector"⟩

/-- The begin member the implicit range-for protocol call references. -/
def beginDecl : Decl := ⟨11, "int *begin()"⟩

/-- The end member the implicit range-for protocol call references. -/
def endDecl : Decl := ⟨12, "int *end()"⟩

/-- The loop variable of the range-for fixture. -/
def xDecl : Decl := ⟨13, "x"⟩

/-- A body containing an implicit range-for loop, as the enumeration
engine sees it: the explicitly written range expression type name sits
inside an implicit range-declaration node, the synthesized begin and end
calls are implicit nodes referencing the protocol members, and the loop
body explicitly references the loop variable. -/
def rangeForBody : Ast :=
  .mk false [] [
    .mk false [] [
      .mk true [] [
        .mk false [⟨0, none, .typeRef (.recordT vecDecl)⟩] []
      ],
      .mk true [⟨0, none, .declRef (.plain beginDecl)⟩] [],
      .mk true [⟨0, none, .declRef (.plain endDecl)⟩] [],
      .mk false [⟨1, none, .declRef (.plain xDecl)⟩] []
    ]
  ]

/-- Reporting a declaration not yet present in a target set appends a
fresh entry. -/
theorem report_fresh (ts : TargetSet) (d : Decl) (f : DeclRelationSet)
    (h : ∀ e ∈ ts, e.1 ≠ d) : report ts d f = ts ++ [(d, f)] := by
  have hb : ts.any (fun e => decide (e.1 = d)) = false := by
    rw [List.any_eq_false]
    intro e he
    simpa using h e he
  simp [report, hb]

/-- Folding report with empty flags over pairwise-distinct fresh
declarations appends one untagged entry per declaration, in order. -/
theorem foldl_report_fresh (cs : List Decl) (ts : TargetSet)
    (h1 : cs.Nodup) (h2 : ∀ d ∈ cs, ∀ e ∈ ts, e.1 ≠ d) :
    cs.foldl (fun acc d => report acc d relNone) ts =
      ts ++ cs.map (fun d => (d, relNone)) := by
  induction cs generalizing ts with
  | nil => simp
  | cons c rest ih =>
    have hcr := List.nodup_cons.mp h1
    rw [List.foldl_cons, report_fresh ts c relNone
      (fun e he => h2 c (List.mem_cons_self c rest) e he)]
    have hfresh : ∀ d ∈ rest, ∀ e ∈ ts ++ [(c, relNone)], e.1 ≠ d := by
      intro d hd e he
      rcases List.mem_append.mp he with hl | hr
      · exact h2 d (List.mem_cons_of_mem _ hd) e hl
      · have hec : e = (c, relNone) := by simpa using hr
        subst hec
        intro hde
        have hcd : c = d := hde
        exact hcr.1 (hcd ▸ hd)
    rw [ih (ts ++ [(c, relNone)]) hcr.2 hfresh]
    simp

/-- A direct reference through a using-shadow resolves to the
using-declaration tagged Alias followed by the real declaration tagged
Underlying. -/
theorem resolve_usingShadow_plain (u d : Decl) (h : u ≠ d) :
    resolve (.declRef (.usingShadow u (.plain d))) =
      [(u, relAlias), (d, relUnderlying)] := by
  show add (.usingShadow u (.plain d)) relNone [] = _
  simp only [add]
  rw [report_fresh [] u _ (by simp)]
  rw [report_fresh _ d _ ?fresh]
  case fresh =>
    intro e he
    have : e = (u, DeclRelationSet.union relNone relAlias) := by simpa using he
    subst this
    exact h
  rfl

/-- A qualifier segment naming a namespace alias resolves to the aliased
namespace tagged Underlying and the alias declaration tagged Alias. -/
theorem resolve_nsAlias_plain (a n : Decl) (h : a ≠ n) :
    resolve (.nnsSegment (.nsAlias a (.plain n))) =
      [(n, relUnderlying), (a, relAlias)] := by
  show add (.nsAlias a (.plain n)) relNone [] = _
  simp only [add]
  rw [report_fresh [] n _ (by simp)]
  rw [report_fresh _ a _ ?fresh]
  case fresh =>
    intro e he
    have : e = (n, DeclRelationSet.union relNone relUnderlying) := by simpa using he
    subst this
    exact fun hna => h hna.symm
  rfl

/-- An implicit template specialization reached with incoming flags f
reports the pattern with f and TemplatePattern, then itself with f and
TemplateInstantiation. -/
theorem resolve_implicitSpec (d pat : Decl) (h : d ≠ pat) :
    resolve (.declRef (.implicitSpec d pat)) = [(pat, relPat), (d, relInst)] := by
  show add (.implicitSpec d pat) relNone [] = _
  simp only [add]
  rw [report_fresh [] pat _ (by simp)]
  rw [report_fresh _ d _ ?fresh]
  case fresh =>
    intro e he
    have : e = (pat, DeclRelationSet.union relNone relPat) := by simpa using he
    subst this
    exact fun hpd => h hpd.symm
  rfl

/-- A type reference through an alias template expanding to an implicit
class-template specialization resolves to the pattern tagged Underlying
and TemplatePattern, the instantiation tagged Underlying and
TemplateInstantiation, and the alias tagged Alias and TemplatePattern. -/
theorem resolve_aliasTemplate (t i p : Decl)
    (h1 : p ≠ i) (h2 : p ≠ t) (h3 : i ≠ t) :
    resolve (.typeRef (.aliasTemplateT t (.templateSpecT (.implicitSpec i p)))) =
      [(p, relUnderlying.union relPat), (i, relUnderlying.union relInst),
       (t, relAlias.union relPat)] := by
  show resolveType _ relNone [] = _
  simp only [resolveType, add]
  rw [report_fresh [] p _ (by simp)]
  rw [report_fresh _ i _ ?freshI]
  case freshI =>
    intro e he
    have : e = (p, DeclRelationSet.union (DeclRelationSet.union relNone relUnderlying) relPat) := by
      simpa using he
    subst this
    exact h1
  rw [report_fresh _ t _ ?freshT]
  case freshT =>
    intro e he
    rcases List.mem_append.mp he with hl | hr
    · have : e = (p, DeclRelationSet.union (DeclRelationSet.union relNone relUnderlying) relPat) := by
        simpa using hl
      subst this
      exact h2
    · have : e = (i, DeclRelationSet.union (DeclRelationSet.union relNone relUnderlying) relInst) := by
        simpa using hr
      subst this
      exact h3
  rfl

/-- C1: for every direct (expression or member-access) reference to a name
introduced by a using-declaration, resolve returns exactly two target
entries: the using-declaration tagged Alias and the real underlying
declaration tagged Underlying; any other declaration — in particular an
overload of the original scope not shadowed by the using-declaration —
never appears in the target set. -/
theorem c1_using_introduced_ref (u d : Decl) (h : u ≠ d) :
    resolve (.declRef (.usingShadow u (.plain d))) =
        [(u, relAlias), (d, relUnderlying)] ∧
      ∀ g : Decl, g ≠ u → g ≠ d → ∀ f : DeclRelationSet,
        (g, f) ∉ resolve (.declRef (.usingShadow u (.plain d))) := by
  have heq := resolve_usingShadow_plain u d h
  refine ⟨heq, ?_⟩
  intro g hgu hgd f hmem
  rw [heq] at hmem
  rcases List.mem_cons.mp hmem with hc | hmem
  · exact hgu (congrArg Prod.fst hc)
  · rcases List.mem_cons.mp hmem with hc | hmem
    · exact hgd (congrArg Prod.fst hc)
    · simp at hmem

/-- C1 witness: instantiated at the using-declaration fixture of the unit
test (using foo::f referencing f(int); the f(char) overload is not
shadowed and does not appear). -/
theorem c1_witness :
    resolve (.declRef (.usingShadow ⟨1, "using foo::f"⟩ (.plain ⟨2, "int f(int)"⟩))) =
        [(⟨1, "using foo::f"⟩, relAlias), (⟨2, "int f(int)"⟩, relUnderlying)] ∧
      (⟨3, "int f(char)"⟩, relNone) ∉
        resolve (.declRef (.usingShadow ⟨1, "using foo::f"⟩ (.plain ⟨2, "int f(int)"⟩))) :=
  ⟨(c1_using_introduced_ref ⟨1, "using foo::f"⟩ ⟨2, "int f(int)"⟩ (by decide)).1,
   (c1_using_introduced_ref ⟨1, "using foo::f"⟩ ⟨2, "int f(int)"⟩ (by decide)).2
     ⟨3, "int f(char)"⟩ (by decide) (by decide) relNone⟩

/-- C2: a reference reaching an implicit specialization of a function or
class template resolves to exactly two entries, the concrete
specialization tagged TemplateInstantiation and the primary template
tagged TemplatePattern; a reference reaching an explicit user-written
specialization resolves to exactly one untagged entry. -/
theorem c2_template_specializations (d pat e : Decl) (h : d ≠ pat) :
    resolve (.declRef (.implicitSpec d pat)) = [(pat, relPat), (d, relInst)] ∧
      resolve (.typeRef (.templateSpecT (.implicitSpec d pat))) =
        [(pat, relPat), (d, relInst)] ∧
      resolve (.declRef (.explicitSpec e)) = [(e, relNone)] ∧
      resolve (.typeRef (.templateSpecT (.explicitSpec e))) = [(e, relNone)] := by
  have heq := resolve_implicitSpec d pat h
  exact ⟨heq, heq, rfl, rfl⟩

/-- C2 witness: instantiated at the function-template fixture of the unit
test (implicit specialization foo of int with pattern bool foo(T), and an
explicit specialization). -/
theorem c2_witness :
    resolve (.declRef (.implicitSpec ⟨5, "template<> bool foo<int>(int)"⟩ ⟨6, "bool foo(T)"⟩)) =
        [(⟨6, "bool foo(T)"⟩, relPat), (⟨5, "template<> bool foo<int>(int)"⟩, relInst)] ∧
      resolve (.typeRef (.templateSpecT (.implicitSpec ⟨5, "template<> bool foo<int>(int)"⟩
          ⟨6, "bool foo(T)"⟩))) =
        [(⟨6, "bool foo(T)"⟩, relPat), (⟨5, "template<> bool foo<int>(int)"⟩, relInst)] ∧
      resolve (.declRef (.explicitSpec ⟨7, "template<> class Foo<42>"⟩)) =
        [(⟨7, "template<> class Foo<42>"⟩, relNone)] ∧
      resolve (.typeRef (.templateSpecT (.explicitSpec ⟨7, "template<> class Foo<42>"⟩))) =
        [(⟨7, "template<> class Foo<42>"⟩, relNone)] :=
  c2_template_specializations ⟨5, "template<> bool foo<int>(int)"⟩ ⟨6, "bool foo(T)"⟩
    ⟨7, "template<> class Foo<42>"⟩ (by decide)

/-- C3: a type reference written through an alias template that expands to
a class-template instantiation resolves to exactly three entries whose tag
sets union across the alias and instantiation layers: the generic pattern
tagged TemplatePattern and Underlying, the concrete instantiation tagged
TemplateInstantiation and Underlying, and the alias-template declaration
tagged Alias and TemplatePattern. -/
theorem c3_alias_template_type (t i p : Decl)
    (h1 : p ≠ i) (h2 : p ≠ t) (h3 : i ≠ t) :
    resolve (.typeRef (.aliasTemplateT t (.templateSpecT (.implicitSpec i p)))) =
      [(p, relUnderlying.union relPat), (i, relUnderlying.union relInst),
       (t, relAlias.union relPat)] :=
  resolve_aliasTemplate t i p h1 h2 h3

/-- C3 witness: instantiated at the TinyVector fixture of the unit test
(alias template TinyVector expanding to an implicit specialization of
SmallVector). -/
theorem c3_witness :
    resolve (.typeRef (.aliasTemplateT ⟨8, "using TinyVector = SmallVector<U, 1>"⟩
        (.templateSpecT (.implicitSpec ⟨9, "template<> class SmallVector<int, 1>"⟩
          ⟨10, "class SmallVector"⟩)))) =
      [(⟨10, "class SmallVector"⟩, relUnderlying.union relPat),
       (⟨9, "template<> class SmallVector<int, 1>"⟩, relUnderlying.union relInst),
       (⟨8, "using TinyVector = SmallVector<U, 1>"⟩, relAlias.union relPat)] :=
  c3_alias_template_type ⟨8, "using TinyVector = SmallVector<U, 1>"⟩
    ⟨9, "template<> class SmallVector<int, 1>"⟩ ⟨10, "class SmallVector"⟩
    (by decide) (by decide) (by decide)

/-- C4 counterexample: a bare template-type-parameter type reference does
not resolve to the empty target set: it resolves to the parameter
declaration (the unit tests expect one entry whose printed name happens to
be empty, and the reference-enumeration tests expect targets T for such a
reference). -/
theorem c4_counterexample :
    resolve (.typeRef (.templateParamT ⟨20, "T"⟩)) ≠ [] := by decide

/-- C4 amended: a deduced-from-initializer (auto) type reference resolves
to the empty target set, while a bare generic (template-type-parameter)
type reference resolves to exactly one untagged entry, the parameter
declaration itself. -/
theorem c4_amended_gap_types (d : Decl) :
    resolve (.typeRef .autoT) = [] ∧
      resolve (.typeRef (.templateParamT d)) = [(d, relNone)] :=
  ⟨rfl, rfl⟩

/-- C5: an unresolved (dependent) call or member access with pairwise
distinct syntactically visible overload candidates resolves to exactly one
entry per candidate, each with the empty relation-tag set. -/
theorem c5_overload_candidates (cs : List Decl) (h : cs.Nodup) :
    resolve (.overloadRef cs) = cs.map (fun d => (d, relNone)) ∧
      (resolve (.overloadRef cs)).length = cs.length := by
  have heq : resolve (.overloadRef cs) = cs.map (fun d => (d, relNone)) := by
    show cs.foldl _ [] = _
    rw [foldl_report_fresh cs [] h (by simp)]
    simp
  exact ⟨heq, by rw [heq]; simp⟩

/-- C5 witness: instantiated at the two-candidate overload fixture of the
unit test (func of int pointer and func of char pointer). -/
theorem c5_witness :
    resolve (.overloadRef [⟨40, "void func(int *)"⟩, ⟨41, "void func(char *)"⟩]) =
        ([⟨40, "void func(int *)"⟩, ⟨41, "void func(char *)"⟩] : List Decl).map
          (fun d => (d, relNone)) ∧
      (resolve (.overloadRef [⟨40, "void func(int *)"⟩, ⟨41, "void func(char *)"⟩])).length =
        ([⟨40, "void func(int *)"⟩, ⟨41, "void func(char *)"⟩] : List Decl).length :=
  c5_overload_candidates [⟨40, "void func(int *)"⟩, ⟨41, "void func(char *)"⟩] (by decide)

/-- C6: collectRefs over the declaration a::b::S::type y; (with a and b
namespaces and S a struct with member type type) emits exactly four
records, in source order: a targeting a with no qualifier, b targeting
a::b with qualifier a::, S targeting a::b::S with qualifier a::b::, and
type targeting a::b::S::type with qualifier struct S:: (the canonical
spelling of the qualifying entity). -/
theorem c6_qualified_name_records :
    collectRefs declABSType =
      [⟨0, none, [nsA]⟩, ⟨3, some "a::", [nsB]⟩,
       ⟨6, some "a::b::", [structS]⟩, ⟨9, some "struct S::", [typeMember]⟩] := by rfl

/-- C7: the enumeration engine never emits a record for a
compiler-synthesized node: an implicit node contributes no record of its
own and only its children are traversed; over the body containing an
implicit range-for loop it emits no record for the implicit begin and end
calls, but does emit the record for the explicitly written range
expression type name (an explicit child of an implicit node) and for the
loop variable. -/
theorem c7_implicit_suppression :
    (∀ (refs : List Ref) (children : List Ast),
        collectRefs (.mk true refs children) = collectRefsList children) ∧
      collectRefs rangeForBody = [⟨0, none, [vecDecl]⟩, ⟨1, none, [xDecl]⟩] :=
  ⟨fun _ _ => rfl, rfl⟩

/-- C8 counterexample: the delegating constructor initializer written
X(1) inside X() resolves to the record declaration struct X, untagged, and
not to the delegating constructor X(int) (the unit test selects a
RecordTypeLoc and expects struct X). -/
theorem c8_counterexample :
    resolve (.ctorInit (.baseOrDelegating (.recordT ⟨30, "struct X"⟩))) =
        [(⟨30, "struct X"⟩, relNone)] ∧
      resolve (.ctorInit (.baseOrDelegating (.recordT ⟨30, "struct X"⟩))) ≠
        [(⟨31, "X(int)"⟩, relNone)] := by decide

/-- C8 amended: a field initializer in a constructor initializer list
resolves to the field declaration; a base or delegating initializer is
resolved through its written type name and targets the class (record)
declaration, not a constructor. -/
theorem c8_amended_ctor_inits (f c : Decl) :
    resolve (.ctorInit (.fieldInit f)) = [(f, relNone)] ∧
      resolve (.ctorInit (.baseOrDelegating (.recordT c))) = [(c, relNone)] :=
  ⟨rfl, rfl⟩

/-- C9 counterexample: a write access to an explicitly declared
Objective-C property on the left-hand side of an assignment resolves to
the property declaration, not to the setter method (the unit test expects
the property declaration for that case). -/
theorem c9_counterexample :
    resolve (.objcPropRef ⟨some ⟨50, "@property int x"⟩, ⟨51, "- (int)x"⟩,
        ⟨52, "- (void)setX:(int)x"⟩, true⟩) ≠
      [(⟨52, "- (void)setX:(int)x"⟩, relNone)] := by decide

/-- C9 amended: a property access synthesized from getter and setter
methods (no explicit property declaration) resolves to the setter when the
access is a write target and to the getter otherwise; an access to an
explicitly declared property resolves to the property declaration itself,
even as a write target. -/
theorem c9_amended_property_access (g s p : Decl) :
    resolve (.objcPropRef ⟨none, g, s, true⟩) = [(s, relNone)] ∧
      resolve (.objcPropRef ⟨none, g, s, false⟩) = [(g, relNone)] ∧
      resolve (.objcPropRef ⟨some p, g, s, true⟩) = [(p, relNone)] :=
  ⟨rfl, rfl, rfl⟩

/-- C10: a reference record whose name resolves through an alias (a
using-declaration shadow, a namespace alias, or an alias template) keeps
only the alias declaration in its target list and omits the underlying
declaration, even though resolving the same node also yields an
Underlying-tagged entry for what the alias unfolds to. -/
theorem c10_records_keep_alias_only (u d a n t i p : Decl)
    (h1 : u ≠ d) (h2 : a ≠ n) (h3 : p ≠ i) (h4 : p ≠ t) (h5 : i ≠ t) :
    explicitReferenceTargets (.declRef (.usingShadow u (.plain d))) = [u] ∧
      (d, relUnderlying) ∈ resolve (.declRef (.usingShadow u (.plain d))) ∧
      explicitReferenceTargets (.nnsSegment (.nsAlias a (.plain n))) = [a] ∧
      (n, relUnderlying) ∈ resolve (.nnsSegment (.nsAlias a (.plain n))) ∧
      explicitReferenceTargets (.typeRef (.aliasTemplateT t
        (.templateSpecT (.implicitSpec i p)))) = [t] ∧
      (p, relUnderlying.union relPat) ∈ resolve (.typeRef (.aliasTemplateT t
        (.templateSpecT (.implicitSpec i p)))) := by
  have e1 := resolve_usingShadow_plain u d h1
  have e2 := resolve_nsAlias_plain a n h2
  have e3 := resolve_aliasTemplate t i p h3 h4 h5
  refine ⟨?_, ?_, ?_, ?_, ?_, ?_⟩
  · rw [explicitReferenceTargets, e1]; rfl
  · rw [e1]; exact List.mem_cons_of_mem _ (List.mem_cons_self _ _)
  · rw [explicitReferenceTargets, e2]; rfl
  · rw [e2]; exact List.mem_cons_self _ _
  · rw [explicitReferenceTargets, e3]; rfl
  · rw [e3]; exact List.mem_cons_self _ _

/-- C10 witness: instantiated at the alias fixtures of the unit tests
(using ns::bar, namespace alias b for a, and the valias alias template
over vector). -/
theorem c10_witness :
    explicitReferenceTargets (.declRef (.usingShadow ⟨60, "using ns::bar"⟩
        (.plain ⟨61, "void bar(int)"⟩))) = [⟨60, "using ns::bar"⟩] ∧
      (⟨61, "void bar(int)"⟩, relUnderlying) ∈
        resolve (.declRef (.usingShadow ⟨60, "using ns::bar"⟩ (.plain ⟨61, "void bar(int)"⟩))) ∧
      explicitReferenceTargets (.nnsSegment (.nsAlias ⟨62, "namespace b = a"⟩
        (.plain ⟨63, "namespace a"⟩))) = [⟨62, "namespace b = a"⟩] ∧
      (⟨63, "namespace a"⟩, relUnderlying) ∈
        resolve (.nnsSegment (.nsAlias ⟨62, "namespace b = a"⟩ (.plain ⟨63, "namespace a"⟩))) ∧
      explicitReferenceTargets (.typeRef (.aliasTemplateT ⟨64, "using valias = vector<T>"⟩
        (.templateSpecT (.implicitSpec ⟨65, "template<> struct vector<int>"⟩
          ⟨66, "struct vector"⟩)))) = [⟨64, "using valias = vector<T>"⟩] ∧
      (⟨66, "struct vector"⟩, relUnderlying.union relPat) ∈
        resolve (.typeRef (.aliasTemplateT ⟨64, "using valias = vector<T>"⟩
          (.templateSpecT (.implicitSpec ⟨65, "template<> struct vector<int>"⟩
            ⟨66, "struct vector"⟩)))) :=
  c10_records_keep_alias_only ⟨60, "using ns::bar"⟩ ⟨61, "void bar(int)"⟩
    ⟨62, "namespace b = a"⟩ ⟨63, "namespace a"⟩ ⟨64, "using valias = vector<T>"⟩
    ⟨65, "template<> struct vector<int>"⟩ ⟨66, "struct vector"⟩
    (by decide) (by decide) (by decide) (by decide) (by decide)
